import Mathlib

/-
  Verification of an NES emulator core (a JavaScript program consisting of a
  Memory object, a CPU object with addressing modes, an instruction set and a
  decode-and-execute switch, a PPU object, and an iNES ROM loader) against its
  natural-language specification.

  Modelling conventions.
  JavaScript numbers are modelled as Int (every value arising here is an
  integer; intermediate values such as the SBC difference can be negative).
  The 32-bit JavaScript bitwise operators are modelled by the js* helpers
  below: each converts its operands with ToUint32 / ToInt32 exactly as the
  ECMAScript semantics prescribe.  The Uint8Array backing stores are modelled
  as functions from Nat (index) to Nat (stored byte); indices are produced by
  masking, hence non-negative, and the stored values come through masks so the
  array model never needs clamping.  Mutation of the global CPU / Memory / PPU
  objects is modelled by explicit state passing on the Machine and PPUState
  structures; methods that mutate state take and return the structure, and
  addressing modes return a pair of the produced value and the updated state.
-/

namespace NES

/-- ECMAScript ToUint32: the operand reduced into the range of 32-bit
unsigned integers, as a Nat. -/
def jsToUint32 (x : Int) : Nat := (x % 4294967296).toNat

/-- ECMAScript ToInt32 applied to an already-reduced 32-bit unsigned value:
reinterpret as a signed 32-bit integer. -/
def jsInt32 (n : Nat) : Int :=
  if n < 2147483648 then (n : Int) else (n : Int) - 4294967296

/-- The JavaScript bitwise AND operator on numbers. -/
def jsAnd (x y : Int) : Int := jsInt32 (jsToUint32 x &&& jsToUint32 y)

/-- The JavaScript bitwise OR operator on numbers. -/
def jsOr (x y : Int) : Int := jsInt32 (jsToUint32 x ||| jsToUint32 y)

/-- The JavaScript bitwise XOR operator on numbers. -/
def jsXor (x y : Int) : Int := jsInt32 (jsToUint32 x ^^^ jsToUint32 y)

/-- The JavaScript left-shift operator on numbers (shift count taken mod 32). -/
def jsShl (x y : Int) : Int :=
  jsInt32 ((jsToUint32 x <<< (jsToUint32 y % 32)) % 4294967296)

/-- The JavaScript sign-propagating right-shift operator on numbers: an
arithmetic shift of the ToInt32 value, which is floor division by a power
of two. -/
def jsShr (x y : Int) : Int :=
  Int.fdiv (jsInt32 (jsToUint32 x)) (2 ^ (jsToUint32 y % 32))

/-- CPU.Flags: the seven status flags of the 6502 core, each a JavaScript
boolean in the source. -/
structure Flags where
  breakFlag : Bool := false
  carryFlag : Bool := false
  decimalModeFlag : Bool := false
  interruptFlag : Bool := false
  negativeFlag : Bool := false
  overflowFlag : Bool := false
  zeroFlag : Bool := false
deriving DecidableEq, Repr

/-- The combined mutable state of the Memory object (data: 64 KiB Uint8Array;
ppuMemory: 16 KiB Uint8Array) and the CPU object (registers A, X, Y, PC, SP
and the Flags sub-object). -/
structure Machine where
  data : Nat → Nat
  ppuMemory : Nat → Nat
  A : Int
  X : Int
  Y : Int
  PC : Int
  SP : Int
  flags : Flags

/-- Memory.read: address is masked to 16 bits; internal RAM and its mirrors
are indexed by address AND 0x07FF, the PPU register range by
address AND 0x2007, and the APU and cartridge ranges directly. -/
def memRead (m : Machine) (address : Int) : Int :=
  let address := jsAnd address 0xFFFF
  if address < 0x2000 then (m.data (jsAnd address 0x07FF).toNat : Int)
  else if 0x2000 ≤ address ∧ address < 0x4000 then
    (m.data (jsAnd address 0x2007).toNat : Int)
  else if 0x4000 ≤ address ∧ address ≤ 0x401F then (m.data address.toNat : Int)
  else if 0x4020 ≤ address then (m.data address.toNat : Int)
  else 0

/-- Memory.write: address masked to 16 bits, value masked to 8 bits, then the
same region decoding as Memory.read chooses the stored index. -/
def memWrite (m : Machine) (address value : Int) : Machine :=
  let address := jsAnd address 0xFFFF
  let value := jsAnd value 0xFF
  if address < 0x2000 then
    { m with data := Function.update m.data (jsAnd address 0x07FF).toNat value.toNat }
  else if 0x2000 ≤ address ∧ address < 0x4000 then
    { m with data := Function.update m.data (jsAnd address 0x2007).toNat value.toNat }
  else if 0x4000 ≤ address ∧ address ≤ 0x401F then
    { m with data := Function.update m.data address.toNat value.toNat }
  else if 0x4020 ≤ address then
    { m with data := Function.update m.data address.toNat value.toNat }
  else m

/-- CPU.reset: clears A, X and Y, sets PC to 0x8000 and SP to 0xFD.  The
source touches neither the flags nor any memory. -/
def cpuReset (m : Machine) : Machine :=
  { m with A := 0x00, X := 0x00, Y := 0x00, PC := 0x8000, SP := 0xFD }

/-- CPU.getStatusFlags: packs the flag booleans into one byte (bit 5, the
unused bit, is never set by the source). -/
def getStatusFlags (m : Machine) : Int :=
  jsOr (if m.flags.carryFlag then 0x01 else 0)
    (jsOr (if m.flags.zeroFlag then 0x02 else 0)
      (jsOr (if m.flags.interruptFlag then 0x04 else 0)
        (jsOr (if m.flags.decimalModeFlag then 0x08 else 0)
          (jsOr (if m.flags.breakFlag then 0x10 else 0)
            (jsOr (if m.flags.overflowFlag then 0x40 else 0)
              (if m.flags.negativeFlag then 0x80 else 0))))))

/-- CPU.setFlags: unpacks a byte into the seven flag booleans. -/
def setFlags (m : Machine) (value : Int) : Machine :=
  { m with flags :=
    { carryFlag := decide (jsAnd value 0x01 ≠ 0),
      zeroFlag := decide (jsAnd value 0x02 ≠ 0),
      interruptFlag := decide (jsAnd value 0x04 ≠ 0),
      decimalModeFlag := decide (jsAnd value 0x08 ≠ 0),
      breakFlag := decide (jsAnd value 0x10 ≠ 0),
      overflowFlag := decide (jsAnd value 0x40 ≠ 0),
      negativeFlag := decide (jsAnd value 0x80 ≠ 0) } }

/-- CPU.addressing_modes.Absolute: fetch the little-endian operand word and
advance PC past it. -/
def Absolute (m : Machine) : Int × Machine :=
  let lowByte := memRead m m.PC
  let m := { m with PC := m.PC + 1 }
  let highByte := memRead m m.PC
  let m := { m with PC := m.PC + 1 }
  (jsOr (jsShl highByte 8) lowByte, m)

/-- CPU.addressing_modes.AbsoluteX. -/
def AbsoluteX (m : Machine) : Int × Machine :=
  let (baseAddress, m) := Absolute m
  (jsAnd (baseAddress + m.X) 0xFFFF, m)

/-- CPU.addressing_modes.AbsoluteY. -/
def AbsoluteY (m : Machine) : Int × Machine :=
  let (baseAddress, m) := Absolute m
  (jsAnd (baseAddress + m.Y) 0xFFFF, m)

/-- CPU.addressing_modes.Immediate. -/
def Immediate (m : Machine) : Int × Machine :=
  let operand := memRead m m.PC
  (operand, { m with PC := m.PC + 1 })

/-- CPU.addressing_modes.IndX. -/
def IndX (m : Machine) : Int × Machine :=
  let zeroPageAddress := jsAnd (memRead m m.PC + m.X) 0xFF
  let m := { m with PC := m.PC + 1 }
  let lowByte := memRead m zeroPageAddress
  let highByte := memRead m (jsAnd (zeroPageAddress + 1) 0xFF)
  (jsOr (jsShl highByte 8) lowByte, m)

/-- CPU.addressing_modes.IndY. -/
def IndY (m : Machine) : Int × Machine :=
  let zeroPageAddress := memRead m m.PC
  let m := { m with PC := m.PC + 1 }
  let lowByte := memRead m zeroPageAddress
  let highByte := memRead m (jsAnd (zeroPageAddress + 1) 0xFF)
  let baseAddress := jsOr (jsShl highByte 8) lowByte
  (jsAnd (baseAddress + m.Y) 0xFFFF, m)

/-- CPU.addressing_modes.Indirect: fetches a pointer word, then dereferences
it with the 6502 page-boundary bug for the high byte. -/
def Indirect (m : Machine) : Int × Machine :=
  let lowByte := memRead m m.PC
  let m := { m with PC := m.PC + 1 }
  let highByte := memRead m m.PC
  let m := { m with PC := m.PC + 1 }
  let pointer := jsOr (jsShl highByte 8) lowByte
  let effectiveLowByte := memRead m pointer
  let effectiveHighByte := memRead m (jsOr (jsAnd pointer 0xFF00) (jsAnd (pointer + 1) 0xFF))
  (jsOr (jsShl effectiveHighByte 8) effectiveLowByte, m)

/-- CPU.addressing_modes.Relative: a signed 8-bit offset from the
post-increment PC. -/
def Relative (m : Machine) : Int × Machine :=
  let offset := memRead m m.PC
  let m := { m with PC := m.PC + 1 }
  (if offset < 0x80 then m.PC + offset else m.PC + offset - 0x100, m)

/-- CPU.addressing_modes.ZeroPage. -/
def ZeroPage (m : Machine) : Int × Machine :=
  let address := memRead m m.PC
  (address, { m with PC := m.PC + 1 })

/-- CPU.addressing_modes.ZeroPageX. -/
def ZeroPageX (m : Machine) : Int × Machine :=
  let address := jsAnd (memRead m m.PC + m.X) 0xFF
  (address, { m with PC := m.PC + 1 })

/-- CPU.addressing_modes.ZeroPageY. -/
def ZeroPageY (m : Machine) : Int × Machine :=
  let address := jsAnd (memRead m m.PC + m.Y) 0xFF
  (address, { m with PC := m.PC + 1 })

/-- CPU.instruction_set.ADC: add with carry.  The flag updates use the full
unmasked sum; the masked sum is stored into A afterwards. -/
def ADC (m : Machine) (operand : Int) : Machine :=
  let carry : Int := if m.flags.carryFlag then 1 else 0
  let result := m.A + operand + carry
  { m with
    flags := { m.flags with
      carryFlag := decide (result > 0xFF),
      zeroFlag := decide (jsAnd result 0xFF = 0),
      negativeFlag := decide (jsAnd result 0x80 ≠ 0),
      overflowFlag := decide (jsAnd (jsAnd (jsXor m.A result) (jsXor operand result)) 0x80 ≠ 0) },
    A := jsAnd result 0xFF }

/-- CPU.instruction_set.AND. -/
def AND (m : Machine) (operand : Int) : Machine :=
  let a := jsAnd m.A operand
  { m with
    A := a,
    flags := { m.flags with
      zeroFlag := decide (a = 0),
      negativeFlag := decide (jsAnd a 0x80 ≠ 0) } }

/-- CPU.instruction_set.ASL_A. -/
def ASL_A (m : Machine) : Machine :=
  let carryFlag := decide (jsAnd m.A 0x80 ≠ 0)
  let a := jsAnd (jsShl m.A 1) 0xFF
  { m with
    A := a,
    flags := { m.flags with
      carryFlag := carryFlag,
      zeroFlag := decide (a = 0),
      negativeFlag := decide (jsAnd a 0x80 ≠ 0) } }

/-- CPU.instruction_set.ASL on memory. -/
def ASL (m : Machine) (address : Int) : Machine :=
  let value := memRead m address
  let carryFlag := decide (jsAnd value 0x80 ≠ 0)
  let value := jsAnd (jsShl value 1) 0xFF
  let m := memWrite m address value
  { m with flags := { m.flags with
      carryFlag := carryFlag,
      zeroFlag := decide (value = 0),
      negativeFlag := decide (jsAnd value 0x80 ≠ 0) } }

/-- CPU.instruction_set.BCC. -/
def BCC (m : Machine) (operand : Int) : Machine :=
  if ¬m.flags.carryFlag then { m with PC := operand } else m

/-- CPU.instruction_set.BCS. -/
def BCS (m : Machine) (operand : Int) : Machine :=
  if m.flags.carryFlag then { m with PC := operand } else m

/-- CPU.instruction_set.BEQ. -/
def BEQ (m : Machine) (operand : Int) : Machine :=
  if m.flags.zeroFlag then { m with PC := operand } else m

/-- CPU.instruction_set.BNE. -/
def BNE (m : Machine) (operand : Int) : Machine :=
  if ¬m.flags.zeroFlag then { m with PC := operand } else m

/-- CPU.instruction_set.BMI. -/
def BMI (m : Machine) (operand : Int) : Machine :=
  if m.flags.negativeFlag then { m with PC := operand } else m

/-- CPU.instruction_set.BPL. -/
def BPL (m : Machine) (operand : Int) : Machine :=
  if ¬m.flags.negativeFlag then { m with PC := operand } else m

/-- CPU.instruction_set.BVS. -/
def BVS (m : Machine) (operand : Int) : Machine :=
  if m.flags.overflowFlag then { m with PC := operand } else m

/-- CPU.instruction_set.BVC. -/
def BVC (m : Machine) (operand : Int) : Machine :=
  if ¬m.flags.overflowFlag then { m with PC := operand } else m

/-- CPU.instruction_set.BIT: the operand is used as an address to read. -/
def BIT (m : Machine) (operand : Int) : Machine :=
  let value := memRead m operand
  { m with flags := { m.flags with
      zeroFlag := decide (jsAnd m.A value = 0),
      overflowFlag := decide (jsAnd value 0x40 ≠ 0),
      negativeFlag := decide (jsAnd value 0x80 ≠ 0) } }

/-- CPU.instruction_set.BRK. -/
def BRK (m : Machine) : Machine :=
  let m := { m with PC := m.PC + 1 }
  let m := memWrite m (0x0100 + m.SP) (jsAnd (jsShr m.PC 8) 0xFF)
  let m := { m with SP := jsAnd (m.SP - 1) 0xFF }
  let m := memWrite m (0x0100 + m.SP) (jsAnd m.PC 0xFF)
  let m := { m with SP := jsAnd (m.SP - 1) 0xFF }
  let status := jsOr (getStatusFlags m) 0x10
  let m := memWrite m (0x0100 + m.SP) status
  let m := { m with SP := jsAnd (m.SP - 1) 0xFF }
  let m := { m with flags := { m.flags with interruptFlag := true } }
  let lowByte := memRead m 0xFFFE
  let highByte := memRead m 0xFFFF
  { m with PC := jsOr (jsShl highByte 8) lowByte }

/-- CPU.instruction_set.CLC. -/
def CLC (m : Machine) : Machine :=
  { m with flags := { m.flags with carryFlag := false } }

/-- CPU.instruction_set.CLD. -/
def CLD (m : Machine) : Machine :=
  { m with flags := { m.flags with decimalModeFlag := false } }

/-- CPU.instruction_set.CLI. -/
def CLI (m : Machine) : Machine :=
  { m with flags := { m.flags with interruptFlag := false } }

/-- CPU.instruction_set.CLV. -/
def CLV (m : Machine) : Machine :=
  { m with flags := { m.flags with overflowFlag := false } }

/-- CPU.instruction_set.CMP. -/
def CMP (m : Machine) (operand : Int) : Machine :=
  let result := m.A - operand
  { m with flags := { m.flags with
      carryFlag := decide (m.A ≥ operand),
      zeroFlag := decide (jsAnd result 0xFF = 0),
      negativeFlag := decide (jsAnd result 0x80 ≠ 0) } }

/-- CPU.instruction_set.CPX. -/
def CPX (m : Machine) (operand : Int) : Machine :=
  let result := m.X - operand
  { m with flags := { m.flags with
      carryFlag := decide (m.X ≥ operand),
      zeroFlag := decide (jsAnd result 0xFF = 0),
      negativeFlag := decide (jsAnd result 0x80 ≠ 0) } }

/-- CPU.instruction_set.CPY. -/
def CPY (m : Machine) (operand : Int) : Machine :=
  let result := m.Y - operand
  { m with flags := { m.flags with
      carryFlag := decide (m.Y ≥ operand),
      zeroFlag := decide (jsAnd result 0xFF = 0),
      negativeFlag := decide (jsAnd result 0x80 ≠ 0) } }

/-- CPU.instruction_set.DEC. -/
def DEC (m : Machine) (address : Int) : Machine :=
  let value := jsAnd (memRead m address - 1) 0xFF
  let m := memWrite m address value
  { m with flags := { m.flags with
      zeroFlag := decide (value = 0),
      negativeFlag := decide (jsAnd value 0x80 ≠ 0) } }

/-- CPU.instruction_set.DEX. -/
def DEX (m : Machine) : Machine :=
  let x := jsAnd (m.X - 1) 0xFF
  { m with
    X := x,
    flags := { m.flags with
      zeroFlag := decide (x = 0),
      negativeFlag := decide (jsAnd x 0x80 ≠ 0) } }

/-- CPU.instruction_set.DEY. -/
def DEY (m : Machine) : Machine :=
  let y := jsAnd (m.Y - 1) 0xFF
  { m with
    Y := y,
    flags := { m.flags with
      zeroFlag := decide (y = 0),
      negativeFlag := decide (jsAnd y 0x80 ≠ 0) } }

/-- CPU.instruction_set.EOR. -/
def EOR (m : Machine) (operand : Int) : Machine :=
  let a := jsXor m.A operand
  { m with
    A := a,
    flags := { m.flags with
      zeroFlag := decide (a = 0),
      negativeFlag := decide (jsAnd a 0x80 ≠ 0) } }

/-- CPU.instruction_set.INC. -/
def INC (m : Machine) (address : Int) : Machine :=
  let value := jsAnd (memRead m address + 1) 0xFF
  let m := memWrite m address value
  { m with flags := { m.flags with
      zeroFlag := decide (value = 0),
      negativeFlag := decide (jsAnd value 0x80 ≠ 0) } }

/-- CPU.instruction_set.INX. -/
def INX (m : Machine) : Machine :=
  let x := jsAnd (m.X + 1) 0xFF
  { m with
    X := x,
    flags := { m.flags with
      zeroFlag := decide (x = 0),
      negativeFlag := decide (jsAnd x 0x80 ≠ 0) } }

/-- CPU.instruction_set.INY. -/
def INY (m : Machine) : Machine :=
  let y := jsAnd (m.Y + 1) 0xFF
  { m with
    Y := y,
    flags := { m.flags with
      zeroFlag := decide (y = 0),
      negativeFlag := decide (jsAnd y 0x80 ≠ 0) } }

/-- CPU.instruction_set.JMP_ABS. -/
def JMP_ABS (m : Machine) (address : Int) : Machine :=
  { m with PC := address }

/-- CPU.instruction_set.JMP_IND: dereferences its address argument (again,
with the page-boundary wrap for the high byte) and jumps there. -/
def JMP_IND (m : Machine) (address : Int) : Machine :=
  let lowByte := memRead m address
  let highByteAddress := jsOr (jsAnd address 0xFF00) (jsAnd (address + 1) 0xFF)
  let highByte := memRead m highByteAddress
  { m with PC := jsOr (jsShl highByte 8) lowByte }

/-- CPU.instruction_set.JSR. -/
def JSR (m : Machine) (address : Int) : Machine :=
  let returnAddress := m.PC - 1
  let m := memWrite m (0x0100 + m.SP) (jsAnd (jsShr returnAddress 8) 0xFF)
  let m := { m with SP := jsAnd (m.SP - 1) 0xFF }
  let m := memWrite m (0x0100 + m.SP) (jsAnd returnAddress 0xFF)
  let m := { m with SP := jsAnd (m.SP - 1) 0xFF }
  { m with PC := address }

/-- CPU.instruction_set.LDA. -/
def LDA (m : Machine) (operand : Int) : Machine :=
  { m with
    A := operand,
    flags := { m.flags with
      zeroFlag := decide (operand = 0),
      negativeFlag := decide (jsAnd operand 0x80 ≠ 0) } }

/-- CPU.instruction_set.LDX. -/
def LDX (m : Machine) (operand : Int) : Machine :=
  { m with
    X := operand,
    flags := { m.flags with
      zeroFlag := decide (operand = 0),
      negativeFlag := decide (jsAnd operand 0x80 ≠ 0) } }

/-- CPU.instruction_set.LDY. -/
def LDY (m : Machine) (operand : Int) : Machine :=
  { m with
    Y := operand,
    flags := { m.flags with
      zeroFlag := decide (operand = 0),
      negativeFlag := decide (jsAnd operand 0x80 ≠ 0) } }

/-- CPU.instruction_set.LSR_A. -/
def LSR_A (m : Machine) : Machine :=
  let carryFlag := decide (jsAnd m.A 0x01 ≠ 0)
  let a := jsShr m.A 1
  { m with
    A := a,
    flags := { m.flags with
      carryFlag := carryFlag,
      zeroFlag := decide (a = 0),
      negativeFlag := false } }

/-- CPU.instruction_set.LSR on memory. -/
def LSR (m : Machine) (address : Int) : Machine :=
  let value := memRead m address
  let carryFlag := decide (jsAnd value 0x01 ≠ 0)
  let value := jsShr value 1
  let m := memWrite m address value
  { m with flags := { m.flags with
      carryFlag := carryFlag,
      zeroFlag := decide (value = 0),
      negativeFlag := false } }

/-- CPU.instruction_set.NOP. -/
def NOP (m : Machine) : Machine := m

/-- CPU.instruction_set.ORA. -/
def ORA (m : Machine) (operand : Int) : Machine :=
  let a := jsOr m.A operand
  { m with
    A := a,
    flags := { m.flags with
      zeroFlag := decide (a = 0),
      negativeFlag := decide (jsAnd a 0x80 ≠ 0) } }

/-- CPU.instruction_set.PHA. -/
def PHA (m : Machine) : Machine :=
  let m := memWrite m (0x0100 + m.SP) m.A
  { m with SP := jsAnd (m.SP - 1) 0xFF }

/-- CPU.instruction_set.PHP. -/
def PHP (m : Machine) : Machine :=
  let status := jsOr (getStatusFlags m) 0x10
  let m := memWrite m (0x0100 + m.SP) status
  { m with SP := jsAnd (m.SP - 1) 0xFF }

/-- CPU.instruction_set.PLA. -/
def PLA (m : Machine) : Machine :=
  let m := { m with SP := jsAnd (m.SP + 1) 0xFF }
  let a := memRead m (0x0100 + m.SP)
  { m with
    A := a,
    flags := { m.flags with
      zeroFlag := decide (a = 0),
      negativeFlag := decide (jsAnd a 0x80 ≠ 0) } }

/-- CPU.instruction_set.PLP. -/
def PLP (m : Machine) : Machine :=
  let m := { m with SP := jsAnd (m.SP + 1) 0xFF }
  let status := memRead m (0x0100 + m.SP)
  setFlags m status

/-- CPU.instruction_set.ROL_A. -/
def ROL_A (m : Machine) : Machine :=
  let carry : Int := if m.flags.carryFlag then 1 else 0
  let carryFlag := decide (jsAnd m.A 0x80 ≠ 0)
  let a := jsAnd (jsOr (jsShl m.A 1) carry) 0xFF
  { m with
    A := a,
    flags := { m.flags with
      carryFlag := carryFlag,
      zeroFlag := decide (a = 0),
      negativeFlag := decide (jsAnd a 0x80 ≠ 0) } }

/-- CPU.instruction_set.ROL on memory. -/
def ROL (m : Machine) (address : Int) : Machine :=
  let value := memRead m address
  let carry : Int := if m.flags.carryFlag then 1 else 0
  let carryFlag := decide (jsAnd value 0x80 ≠ 0)
  let value := jsAnd (jsOr (jsShl value 1) carry) 0xFF
  let m := memWrite m address value
  { m with flags := { m.flags with
      carryFlag := carryFlag,
      zeroFlag := decide (value = 0),
      negativeFlag := decide (jsAnd value 0x80 ≠ 0) } }

/-- CPU.instruction_set.ROR_A. -/
def ROR_A (m : Machine) : Machine :=
  let carry : Int := if m.flags.carryFlag then 0x80 else 0
  let carryFlag := decide (jsAnd m.A 0x01 ≠ 0)
  let a := jsOr (jsShr m.A 1) carry
  { m with
    A := a,
    flags := { m.flags with
      carryFlag := carryFlag,
      zeroFlag := decide (a = 0),
      negativeFlag := decide (jsAnd a 0x80 ≠ 0) } }

/-- CPU.instruction_set.ROR on memory. -/
def ROR (m : Machine) (address : Int) : Machine :=
  let value := memRead m address
  let carry : Int := if m.flags.carryFlag then 0x80 else 0
  let carryFlag := decide (jsAnd value 0x01 ≠ 0)
  let value := jsOr (jsShr value 1) carry
  let m := memWrite m address value
  { m with flags := { m.flags with
      carryFlag := carryFlag,
      zeroFlag := decide (value = 0),
      negativeFlag := decide (jsAnd value 0x80 ≠ 0) } }

/-- CPU.instruction_set.RTI. -/
def RTI (m : Machine) : Machine :=
  let m := { m with SP := jsAnd (m.SP + 1) 0xFF }
  let status := memRead m (0x0100 + m.SP)
  let m := setFlags m status
  let m := { m with SP := jsAnd (m.SP + 1) 0xFF }
  let lo := memRead m (0x0100 + m.SP)
  let m := { m with SP := jsAnd (m.SP + 1) 0xFF }
  let hi := memRead m (0x0100 + m.SP)
  { m with PC := jsOr (jsShl hi 8) lo }

/-- CPU.instruction_set.RTS. -/
def RTS (m : Machine) : Machine :=
  let m := { m with SP := jsAnd (m.SP + 1) 0xFF }
  let lo := memRead m (0x0100 + m.SP)
  let m := { m with SP := jsAnd (m.SP + 1) 0xFF }
  let hi := memRead m (0x0100 + m.SP)
  { m with PC := jsOr (jsShl hi 8) lo + 1 }

/-- CPU.instruction_set.SBC: subtract with borrow.  The overflow flag is
computed from the unmasked difference; the carry flag records that no
borrow occurred; the masked difference is stored into A. -/
def SBC (m : Machine) (operand : Int) : Machine :=
  let carry : Int := if m.flags.carryFlag then 0 else 1
  let temp := m.A - operand - carry
  let overflowFlag := decide (jsAnd (jsXor m.A temp) 0x80 ≠ 0) &&
    decide (jsAnd (jsXor m.A operand) 0x80 ≠ 0)
  let carryFlag := decide (temp ≥ 0)
  let temp := jsAnd temp 0xFF
  { m with
    A := temp,
    flags := { m.flags with
      overflowFlag := overflowFlag,
      carryFlag := carryFlag,
      zeroFlag := decide (temp = 0),
      negativeFlag := decide (jsAnd temp 0x80 ≠ 0) } }

/-- CPU.instruction_set.SEC. -/
def SEC (m : Machine) : Machine :=
  { m with flags := { m.flags with carryFlag := true } }

/-- CPU.instruction_set.SED. -/
def SED (m : Machine) : Machine :=
  { m with flags := { m.flags with decimalModeFlag := true } }

/-- CPU.instruction_set.SEI. -/
def SEI (m : Machine) : Machine :=
  { m with flags := { m.flags with interruptFlag := true } }

/-- CPU.instruction_set.STA. -/
def STA (m : Machine) (address : Int) : Machine := memWrite m address m.A

/-- CPU.instruction_set.STX. -/
def STX (m : Machine) (address : Int) : Machine := memWrite m address m.X

/-- CPU.instruction_set.STY. -/
def STY (m : Machine) (address : Int) : Machine := memWrite m address m.Y

/-- CPU.instruction_set.TAX. -/
def TAX (m : Machine) : Machine :=
  { m with
    X := m.A,
    flags := { m.flags with
      zeroFlag := decide (m.A = 0),
      negativeFlag := decide (jsAnd m.A 0x80 ≠ 0) } }

/-- CPU.instruction_set.TAY. -/
def TAY (m : Machine) : Machine :=
  { m with
    Y := m.A,
    flags := { m.flags with
      zeroFlag := decide (m.A = 0),
      negativeFlag := decide (jsAnd m.A 0x80 ≠ 0) } }

/-- CPU.instruction_set.TSX. -/
def TSX (m : Machine) : Machine :=
  { m with
    X := m.SP,
    flags := { m.flags with
      zeroFlag := decide (m.SP = 0),
      negativeFlag := decide (jsAnd m.SP 0x80 ≠ 0) } }

/-- CPU.instruction_set.TXA. -/
def TXA (m : Machine) : Machine :=
  { m with
    A := m.X,
    flags := { m.flags with
      zeroFlag := decide (m.X = 0),
      negativeFlag := decide (jsAnd m.X 0x80 ≠ 0) } }

/-- CPU.instruction_set.TXS: no flag updates. -/
def TXS (m : Machine) : Machine := { m with SP := m.X }

/-- CPU.instruction_set.TYA. -/
def TYA (m : Machine) : Machine :=
  { m with
    A := m.Y,
    flags := { m.flags with
      zeroFlag := decide (m.Y = 0),
      negativeFlag := decide (jsAnd m.Y 0x80 ≠ 0) } }

/-- CPU.decodeAndExecute: fetch the opcode at PC, advance PC, then dispatch
through the big switch.  The switch is transcribed case for case from the
source, including its miswirings: opcode 0x50 invokes BVS, every ORA opcode
invokes LSR, opcode 0x4E resolves its operand with AbsoluteX, and every ROR
opcode invokes ROL (0x6A invokes ROL_A).  The default branch only logs. -/
def decodeAndExecute (m : Machine) : Machine :=
  let opcode := (memRead m m.PC).toNat
  let m := { m with PC := m.PC + 1 }
  match opcode with
  | 0x69 => let (operand, m) := Immediate m; ADC m operand
  | 0x6D => let (operand, m) := Absolute m; ADC m operand
  | 0x65 => let (operand, m) := ZeroPage m; ADC m operand
  | 0x61 => let (operand, m) := IndX m; ADC m operand
  | 0x71 => let (operand, m) := IndY m; ADC m operand
  | 0x75 => let (operand, m) := ZeroPageX m; ADC m operand
  | 0x7D => let (operand, m) := AbsoluteX m; ADC m operand
  | 0x79 => let (operand, m) := AbsoluteY m; ADC m operand
  | 0x29 => let (operand, m) := Immediate m; AND m operand
  | 0x2D => let (operand, m) := Absolute m; AND m operand
  | 0x25 => let (operand, m) := ZeroPage m; AND m operand
  | 0x21 => let (operand, m) := IndX m; AND m operand
  | 0x31 => let (operand, m) := IndY m; AND m operand
  | 0x35 => let (operand, m) := ZeroPageX m; AND m operand
  | 0x3D => let (operand, m) := AbsoluteX m; AND m operand
  | 0x39 => let (operand, m) := AbsoluteY m; AND m operand
  | 0x0E => let (operand, m) := Absolute m; ASL m operand
  | 0x06 => let (operand, m) := ZeroPage m; ASL m operand
  | 0x0A => ASL_A m
  | 0x16 => let (operand, m) := ZeroPageX m; ASL m operand
  | 0x1E => let (operand, m) := AbsoluteX m; ASL m operand
  | 0x90 => let (operand, m) := Relative m; BCC m operand
  | 0xB0 => let (operand, m) := Relative m; BCS m operand
  | 0xF0 => let (operand, m) := Relative m; BEQ m operand
  | 0xD0 => let (operand, m) := Relative m; BNE m operand
  | 0x30 => let (operand, m) := Relative m; BMI m operand
  | 0x10 => let (operand, m) := Relative m; BPL m operand
  | 0x50 => let (operand, m) := Relative m; BVS m operand
  | 0x70 => let (operand, m) := Relative m; BVS m operand
  | 0x2C => let (operand, m) := Absolute m; BIT m operand
  | 0x24 => let (operand, m) := ZeroPage m; BIT m operand
  | 0x00 => BRK m
  | 0x18 => CLC m
  | 0xD8 => CLD m
  | 0x58 => CLI m
  | 0xB8 => CLV m
  | 0xC9 => let (operand, m) := Immediate m; CMP m operand
  | 0xCD => let (operand, m) := Absolute m; CMP m operand
  | 0xC5 => let (operand, m) := ZeroPage m; CMP m operand
  | 0xC1 => let (operand, m) := IndX m; CMP m operand
  | 0xD1 => let (operand, m) := IndY m; CMP m operand
  | 0xD5 => let (operand, m) := ZeroPageX m; CMP m operand
  | 0xDD => let (operand, m) := AbsoluteX m; CMP m operand
  | 0xD9 => let (operand, m) := AbsoluteY m; CMP m operand
  | 0xE0 => let (operand, m) := Immediate m; CPX m operand
  | 0xEC => let (operand, m) := Absolute m; CPX m operand
  | 0xE4 => let (operand, m) := ZeroPage m; CPX m operand
  | 0xC0 => let (operand, m) := Immediate m; CPY m operand
  | 0xCC => let (operand, m) := Absolute m; CPY m operand
  | 0xC4 => let (operand, m) := ZeroPage m; CPY m operand
  | 0xCE => let (operand, m) := Absolute m; DEC m operand
  | 0xC6 => let (operand, m) := ZeroPage m; DEC m operand
  | 0xD6 => let (operand, m) := ZeroPageX m; DEC m operand
  | 0xDE => let (operand, m) := AbsoluteX m; DEC m operand
  | 0xCA => DEX m
  | 0x88 => DEY m
  | 0x49 => let (operand, m) := Immediate m; EOR m operand
  | 0x4D => let (operand, m) := Absolute m; EOR m operand
  | 0x45 => let (operand, m) := ZeroPage m; EOR m operand
  | 0x41 => let (operand, m) := IndX m; EOR m operand
  | 0x51 => let (operand, m) := IndY m; EOR m operand
  | 0x55 => let (operand, m) := ZeroPageX m; EOR m operand
  | 0x5D => let (operand, m) := AbsoluteX m; EOR m operand
  | 0x59 => let (operand, m) := AbsoluteY m; EOR m operand
  | 0xEE => let (operand, m) := Absolute m; INC m operand
  | 0xE6 => let (operand, m) := ZeroPage m; INC m operand
  | 0xF6 => let (operand, m) := ZeroPageX m; INC m operand
  | 0xFE => let (operand, m) := AbsoluteX m; INC m operand
  | 0xE8 => INX m
  | 0xC8 => INY m
  | 0x4C => let (operand, m) := Absolute m; JMP_ABS m operand
  | 0x6C => let (operand, m) := Indirect m; JMP_IND m operand
  | 0x20 => let (operand, m) := Absolute m; JSR m operand
  | 0xA9 => let (operand, m) := Immediate m; LDA m operand
  | 0xAD => let (operand, m) := Absolute m; LDA m operand
  | 0xA5 => let (operand, m) := ZeroPage m; LDA m operand
  | 0xA1 => let (operand, m) := IndX m; LDA m operand
  | 0xB1 => let (operand, m) := IndY m; LDA m operand
  | 0xB5 => let (operand, m) := ZeroPageX m; LDA m operand
  | 0xBD => let (operand, m) := AbsoluteX m; LDA m operand
  | 0xB9 => let (operand, m) := AbsoluteY m; LDA m operand
  | 0xA2 => let (operand, m) := Immediate m; LDX m operand
  | 0xAE => let (operand, m) := Absolute m; LDX m operand
  | 0xA6 => let (operand, m) := ZeroPage m; LDX m operand
  | 0xBE => let (operand, m) := AbsoluteY m; LDX m operand
  | 0xB6 => let (operand, m) := ZeroPageY m; LDX m operand
  | 0xA0 => let (operand, m) := Immediate m; LDY m operand
  | 0xAC => let (operand, m) := Absolute m; LDY m operand
  | 0xA4 => let (operand, m) := ZeroPage m; LDY m operand
  | 0xB4 => let (operand, m) := ZeroPageX m; LDY m operand
  | 0xBC => let (operand, m) := AbsoluteX m; LDY m operand
  | 0x4E => let (operand, m) := AbsoluteX m; LSR m operand
  | 0x46 => let (operand, m) := ZeroPage m; LSR m operand
  | 0x4A => LSR_A m
  | 0x56 => let (operand, m) := ZeroPageX m; LSR m operand
  | 0x5E => let (operand, m) := AbsoluteX m; LSR m operand
  | 0xEA => NOP m
  | 0x09 => let (operand, m) := Immediate m; LSR m operand
  | 0x0D => let (operand, m) := Absolute m; LSR m operand
  | 0x05 => let (operand, m) := ZeroPage m; LSR m operand
  | 0x01 => let (operand, m) := IndX m; LSR m operand
  | 0x11 => let (operand, m) := IndY m; LSR m operand
  | 0x15 => let (operand, m) := ZeroPageX m; LSR m operand
  | 0x1D => let (operand, m) := AbsoluteX m; LSR m operand
  | 0x19 => let (operand, m) := AbsoluteY m; LSR m operand
  | 0x48 => PHA m
  | 0x08 => PHP m
  | 0x68 => PLA m
  | 0x28 => PLP m
  | 0x2E => let (operand, m) := Absolute m; ROL m operand
  | 0x26 => let (operand, m) := ZeroPage m; ROL m operand
  | 0x2A => ROL_A m
  | 0x36 => let (operand, m) := ZeroPageX m; ROL m operand
  | 0x3E => let (operand, m) := AbsoluteX m; ROL m operand
  | 0x6E => let (operand, m) := Absolute m; ROL m operand
  | 0x66 => let (operand, m) := ZeroPage m; ROL m operand
  | 0x6A => ROL_A m
  | 0x76 => let (operand, m) := ZeroPageX m; ROL m operand
  | 0x7E => let (operand, m) := AbsoluteX m; ROL m operand
  | 0x40 => RTI m
  | 0x60 => RTS m
  | 0xE9 => let (operand, m) := Immediate m; SBC m operand
  | 0xED => let (operand, m) := Absolute m; SBC m operand
  | 0xE5 => let (operand, m) := ZeroPage m; SBC m operand
  | 0xE1 => let (operand, m) := IndX m; SBC m operand
  | 0xF1 => let (operand, m) := IndY m; SBC m operand
  | 0xF5 => let (operand, m) := ZeroPageX m; SBC m operand
  | 0xFD => let (operand, m) := AbsoluteX m; SBC m operand
  | 0xF9 => let (operand, m) := AbsoluteY m; SBC m operand
  | 0x38 => SEC m
  | 0xF8 => SED m
  | 0x78 => SEI m
  | 0x8D => let (operand, m) := Absolute m; STA m operand
  | 0x85 => let (operand, m) := ZeroPage m; STA m operand
  | 0x81 => let (operand, m) := IndX m; STA m operand
  | 0x91 => let (operand, m) := IndY m; STA m operand
  | 0x95 => let (operand, m) := ZeroPageX m; STA m operand
  | 0x9D => let (operand, m) := AbsoluteX m; STA m operand
  | 0x99 => let (operand, m) := AbsoluteY m; STA m operand
  | 0x8E => let (operand, m) := Absolute m; STX m operand
  | 0x86 => let (operand, m) := ZeroPage m; STX m operand
  | 0x96 => let (operand, m) := ZeroPageY m; STX m operand
  | 0x8C => let (operand, m) := Absolute m; STY m operand
  | 0x84 => let (operand, m) := ZeroPage m; STY m operand
  | 0x94 => let (operand, m) := ZeroPageX m; STY m operand
  | 0xAA => TAX m
  | 0xA8 => TAY m
  | 0xBA => TSX m
  | 0x8A => TXA m
  | 0x9A => TXS m
  | 0x98 => TYA m
  | _ => m

/-- Runs decodeAndExecute the given number of times, as the test harness
loops do. -/
def runCPU (m : Machine) : Nat → Machine
  | 0 => m
  | n + 1 => runCPU (decodeAndExecute m) n

/-- The PPU object: its eight register fields and the current scanline
counter.  The source PPU has no dot counter, no frame toggle and no
write-toggle latch. -/
structure PPUState where
  ctrl : Int := 0x00
  mask : Int := 0x00
  status : Int := 0x00
  oamAddr : Int := 0x00
  oamData : Int := 0x00
  scroll : Int := 0x00
  addr : Int := 0x00
  data : Int := 0x00
  currentScanline : Int := 0
deriving DecidableEq, Repr

/-- The global constant CYCLES_PER_SCANLINE from the source. -/
def CYCLES_PER_SCANLINE : Nat := 113

/-- PPU.readRegister: the 0x2002 branch binds the current status and returns
it; the commented clearing of the VBlank flag is absent from the source, so
the state is returned unchanged.  The default branch only logs an error and
returns 0. -/
def readRegister (p : PPUState) (address : Int) : Int × PPUState :=
  if address = 0x2002 then
    let status := p.status
    (status, p)
  else if address = 0x2004 then (p.oamData, p)
  else if address = 0x2007 then (p.data, p)
  else (0, p)

/-- PPU.executeCycles: for each i in [0, cycles) the source increments
currentScanline whenever i mod CYCLES_PER_SCANLINE is 0 (renderScanline is
a stub).  There is no wrap-around of any kind. -/
def executeCycles (p : PPUState) (cycles : Nat) : PPUState :=
  (List.range cycles).foldl
    (fun p i =>
      if i % CYCLES_PER_SCANLINE = 0 then
        { p with currentScanline := p.currentScanline + 1 }
      else p)
    p

/-- Result of loadRom: either the early return after logging an invalid-ROM
message, or the machine after loading and the CPU reset. -/
inductive LoadResult where
  | invalidRom : LoadResult
  | ok : Machine → LoadResult

/-- Indexing the ROM buffer.  Reading past the end of a Node buffer yields
undefined, which both fails the strict magic comparisons (as 0 does here)
and converts to 0 under the bitwise mask in Memory.write, so out-of-range
reads are modelled as 0. -/
def romByte (rom : List Nat) (i : Nat) : Nat := rom.getD i 0

/-- The PRG copy loop of loadRom: writes rom bytes from index 16 onward to
CPU addresses from 0x8000, breaking when the address leaves the range
below 0x10000. -/
def loadPrg (rom : List Nat) : Machine → Nat → Nat → Nat → Machine
  | m, _, _, 0 => m
  | m, i, cpuMemoryAddress, n + 1 =>
    if cpuMemoryAddress < 0x8000 ∨ 0x10000 ≤ cpuMemoryAddress then m
    else
      loadPrg rom (memWrite m (cpuMemoryAddress : Int) (romByte rom i : Int))
        (i + 1) (cpuMemoryAddress + 1) n

/-- loadRom: checks only the four magic bytes; on success copies
16384 * rom[4] PRG bytes starting at file offset 16 to memory starting at
0x8000 and resets the CPU.  The source performs no mapper, trainer or
length validation. -/
def loadRom (m : Machine) (rom : List Nat) : LoadResult :=
  if romByte rom 0 ≠ 0x4E ∨ romByte rom 1 ≠ 0x45 ∨ romByte rom 2 ≠ 0x53 ∨
      romByte rom 3 ≠ 0x1A then
    LoadResult.invalidRom
  else
    let prgBanks := romByte rom 4
    let prgRomSize := 16384 * prgBanks
    LoadResult.ok (cpuReset (loadPrg rom m 16 0x8000 prgRomSize))

/-- A machine with zeroed memory and registers, SP at its reset value and all
flags clear, used as the base state of the concrete scenarios. -/
def machineZero : Machine :=
  { data := fun _ => 0, ppuMemory := fun _ => 0, A := 0x00, X := 0x00,
    Y := 0x00, PC := 0x0000, SP := 0xFD, flags := {} }

/-- Scenario 1 of the spec: memory 0x0000 = A9 05 69 03 (LDA immediate 5 then
ADC immediate 3), PC at 0x0000, carry clear. -/
def machineADC : Machine :=
  { machineZero with
    data := fun a =>
      if a = 0 then 0xA9 else if a = 1 then 0x05 else
      if a = 2 then 0x69 else if a = 3 then 0x03 else 0 }

/-- A machine with accumulator 5 and carry clear, for instantiating the ADC
theorem. -/
def machineADCW : Machine := { machineZero with A := 5 }

/-- A machine with accumulator 5 and carry set, for instantiating the SBC
theorem. -/
def machineSBCW : Machine :=
  { machineZero with A := 5, flags := { carryFlag := true } }

/-- A failing input for the ORA claim: opcode 0x09 (ORA immediate) with
operand byte 0xFF at PC = 0, accumulator 0, and the byte 0x03 stored at
address 0x00FF. -/
def machineORA : Machine :=
  { machineZero with
    data := fun a =>
      if a = 0 then 0x09 else if a = 1 then 0xFF else
      if a = 0xFF then 0x03 else 0 }

/-- A failing input for the indirect-JMP claim: the instruction 6C FF 00
(JMP (0x00FF)) at 0x8000 in cartridge space, with the pointer target bytes
0x34 at 0x00FF and 0x12 at 0x0000, so that the single buggy dereference of
0x00FF yields 0x1234. -/
def machineJMP : Machine :=
  { machineZero with
    PC := 0x8000,
    data := fun a =>
      if a = 0x8000 then 0x6C else if a = 0x8001 then 0xFF else
      if a = 0x8002 then 0x00 else
      if a = 0xFF then 0x34 else if a = 0 then 0x12 else 0 }

/-- A machine whose reset vector at 0xFFFC/0xFFFD holds 0x9000 and whose
interrupt-disable flag is clear, for refuting the reset claim. -/
def machineReset : Machine :=
  { machineZero with
    A := 0x12, X := 0x34, Y := 0x56, PC := 0x1234, SP := 0x80,
    data := fun a => if a = 0xFFFC then 0x00 else if a = 0xFFFD then 0x90 else 0 }

/-- A machine whose CPU-memory byte backing address 0x2002 is 0x55, for the
STATUS-read claim. -/
def machineStatus : Machine :=
  { machineZero with data := fun a => if a = 0x2002 then 0x55 else 0 }

/-- A PPU whose STATUS register has bit 7 (VBlank) set. -/
def ppuStatus80 : PPUState := { status := 0x80 }

/-- A PPU sitting on the last scanline of a frame. -/
def ppu261 : PPUState := { currentScanline := 261 }

/-- A 16-byte iNES image with valid magic, zero PRG banks, and byte 6 equal
to 0x10, so its mapper number (byte7 AND 0xF0) OR (byte6 SHR 4) is 1. -/
def romMapper1 : List Nat :=
  [0x4E, 0x45, 0x53, 0x1A, 0x00, 0x00, 0x10, 0, 0, 0, 0, 0, 0, 0, 0, 0]

/-
  Arithmetic bridge lemmas relating the js* 32-bit operator model to plain
  modular arithmetic and bit tests on Nat.
-/

/-- ToUint32 always lands below 2 to the 32. -/
theorem jsToUint32_lt (x : Int) : jsToUint32 x < 4294967296 := by
  unfold jsToUint32; omega

/-- ToUint32 of a small non-negative integer is its Nat value. -/
theorem jsToUint32_small (x : Int) (h0 : 0 ≤ x) (h : x < 4294967296) :
    jsToUint32 x = x.toNat := by
  unfold jsToUint32; omega

/-- ToInt32 of a value below 2 to the 31 is the value itself. -/
theorem jsInt32_small (n : Nat) (h : n < 2147483648) : jsInt32 n = (n : Int) := by
  unfold jsInt32; rw [if_pos h]

/-- ToUint32 inverts ToInt32 on 32-bit values. -/
theorem jsToUint32_jsInt32 (n : Nat) (h : n < 4294967296) :
    jsToUint32 (jsInt32 n) = n := by
  unfold jsInt32 jsToUint32
  by_cases h2 : n < 2147483648
  · rw [if_pos h2]; omega
  · rw [if_neg h2]; omega

/-- ToUint32 of a Nat cast below 2 to the 32 is that Nat. -/
theorem jsToUint32_cast (n : Nat) (h : n < 4294967296) :
    jsToUint32 (n : Int) = n := by
  unfold jsToUint32; omega

/-- Masking with an all-ones mask of k bits, k at most 31, is reduction
modulo 2 to the k: the JavaScript AND agrees with the mathematical
remainder (by Euclidean convention) for every integer operand, including
negative ones. -/
theorem jsAnd_mask (x : Int) (k : Nat) (hk : k ≤ 31) :
    jsAnd x ((2 ^ k : Nat) - 1 : Nat) = x % (2 ^ k : Nat) := by
  have hlt : ((2 : Nat) ^ k - 1) < 4294967296 := by
    have h2 : (2 : Nat) ^ k ≤ 2 ^ 31 := Nat.pow_le_pow_right (by norm_num) hk
    norm_num at h2 ⊢; omega
  unfold jsAnd
  rw [jsToUint32_cast _ hlt, Nat.and_pow_two_sub_one_eq_mod]
  have hmlt : jsToUint32 x % 2 ^ k < 2147483648 := by
    have h1 : jsToUint32 x % 2 ^ k < 2 ^ k :=
      Nat.mod_lt _ (Nat.pos_pow_of_pos _ (by norm_num))
    have h2 : (2 : Nat) ^ k ≤ 2 ^ 31 := Nat.pow_le_pow_right (by norm_num) hk
    norm_num at h2; omega
  rw [jsInt32_small _ hmlt]
  unfold jsToUint32
  have hdvd : ((2 : Int) ^ k) ∣ 4294967296 := by
    rw [show (4294967296 : Int) = 2 ^ 32 by norm_num]
    exact pow_dvd_pow 2 (by omega)
  have h0 : (0 : Int) ≤ x % 4294967296 := Int.emod_nonneg _ (by norm_num)
  push_cast [Int.toNat_of_nonneg h0]
  exact Int.emod_emod_of_dvd x hdvd

/-- The 8-bit mask: JavaScript AND with 255 is remainder modulo 256. -/
theorem jsAnd_255 (x : Int) : jsAnd x 255 = x % 256 := by
  have h := jsAnd_mask x 8 (by norm_num)
  norm_num at h
  exact h

/-- The 11-bit mask used for RAM mirroring. -/
theorem jsAnd_2047 (x : Int) : jsAnd x 2047 = x % 2048 := by
  have h := jsAnd_mask x 11 (by norm_num)
  norm_num at h
  exact h

/-- The 16-bit mask applied to every bus address. -/
theorem jsAnd_65535 (x : Int) : jsAnd x 65535 = x % 65536 := by
  have h := jsAnd_mask x 16 (by norm_num)
  norm_num at h
  exact h

set_option maxRecDepth 4096 in
/-- Testing the 0x80 bit of a Nat is testing bit 7. -/
theorem and128_testBit (x : Nat) : (x &&& 128 ≠ 0) ↔ x.testBit 7 = true := by
  have h255 : (255 : Nat) &&& 128 = 128 := by decide
  have hmod : x &&& 255 = x % 256 := by
    have h := Nat.and_pow_two_sub_one_eq_mod x 8
    norm_num at h
    exact h
  have hx : x &&& 128 = (x % 256) &&& 128 := by
    rw [← hmod, Nat.and_assoc, h255]
  have htb : (x % 256).testBit 7 = x.testBit 7 := by
    have h := Nat.testBit_mod_two_pow x 8 7
    norm_num at h
    exact h
  have hb : ∀ y, y < 256 → ((y &&& 128 ≠ 0) ↔ y.testBit 7 = true) := by decide
  rw [hx, ← htb]
  exact hb _ (Nat.mod_lt _ (by norm_num))

/-- Testing the 0x80 bit after a JavaScript AND is testing bit 7 of the
ToUint32 image. -/
theorem jsAnd128_ne (z : Int) : jsAnd z 128 ≠ 0 ↔ (jsToUint32 z).testBit 7 = true := by
  unfold jsAnd
  have h128 : jsToUint32 (128 : Int) = 128 := by unfold jsToUint32; omega
  rw [h128]
  have hle : jsToUint32 z &&& 128 ≤ 128 := Nat.and_le_right
  rw [jsInt32_small _ (by omega)]
  rw [show ((jsToUint32 z &&& 128 : Nat) : Int) ≠ 0 ↔ (jsToUint32 z &&& 128 : Nat) ≠ 0 by
    exact_mod_cast not_congr Int.natCast_eq_zero]
  exact and128_testBit _

/-- ToUint32 commutes with the JavaScript XOR. -/
theorem jsToUint32_jsXor (x y : Int) :
    jsToUint32 (jsXor x y) = jsToUint32 x ^^^ jsToUint32 y := by
  unfold jsXor
  exact jsToUint32_jsInt32 _
    (Nat.xor_lt_two_pow (n := 32) (jsToUint32_lt x) (jsToUint32_lt y))

/-- ToUint32 commutes with the JavaScript AND. -/
theorem jsToUint32_jsAnd (x y : Int) :
    jsToUint32 (jsAnd x y) = jsToUint32 x &&& jsToUint32 y := by
  unfold jsAnd
  exact jsToUint32_jsInt32 _ (Nat.and_lt_two_pow _ (n := 32) (jsToUint32_lt y))

/-- The Nat value of an integer reduced modulo 256 is the low byte of its
ToUint32 image. -/
theorem emod256_toNat (x : Int) : (x % 256).toNat = jsToUint32 x % 256 := by
  unfold jsToUint32
  omega

/-- Bit 7 only depends on the low byte. -/
theorem testBit7_mod256 (n : Nat) : (n % 256).testBit 7 = n.testBit 7 := by
  have h := Nat.testBit_mod_two_pow n 8 7
  norm_num at h
  exact h

/-- C1: for every accumulator value A in the byte range, operand byte M and
carry flag C, ADC stores the low 8 bits of A + M + C into the accumulator,
sets the carry flag to (sum greater than 0xFF), sets the overflow flag to
((A xor sum) and (M xor sum) and 0x80) nonzero, sets N to bit 7 of the
result and Z to (result equal 0); and running the two instructions
A9 05 69 03 from PC = 0 with carry clear leaves A = 8 with Z, N, C, V all
clear. -/
theorem C1_adc_correct :
    (∀ (m : Machine) (operand : Int), 0 ≤ m.A → m.A < 256 → 0 ≤ operand →
      operand < 256 →
      (ADC m operand).A =
        (m.A + operand + (if m.flags.carryFlag then 1 else 0)) % 256 ∧
      (ADC m operand).flags.carryFlag =
        decide (m.A + operand + (if m.flags.carryFlag then 1 else 0) > 0xFF) ∧
      (ADC m operand).flags.overflowFlag =
        decide (((m.A.toNat ^^^
            (m.A + operand + (if m.flags.carryFlag then 1 else 0)).toNat) &&&
          (operand.toNat ^^^
            (m.A + operand + (if m.flags.carryFlag then 1 else 0)).toNat)) &&&
          0x80 ≠ 0) ∧
      (ADC m operand).flags.negativeFlag =
        (((m.A + operand + (if m.flags.carryFlag then 1 else 0)) % 256)).toNat.testBit 7 ∧
      (ADC m operand).flags.zeroFlag =
        decide ((m.A + operand + (if m.flags.carryFlag then 1 else 0)) % 256 = 0)) ∧
    ((runCPU machineADC 2).A = 0x08 ∧
      (runCPU machineADC 2).flags.zeroFlag = false ∧
      (runCPU machineADC 2).flags.negativeFlag = false ∧
      (runCPU machineADC 2).flags.carryFlag = false ∧
      (runCPU machineADC 2).flags.overflowFlag = false) := by
  constructor
  · intro m operand hA0 hA hop0 hop
    have hc0 : (0 : Int) ≤ (if m.flags.carryFlag then 1 else 0) := by
      split <;> norm_num
    have hc1 : (if m.flags.carryFlag then (1 : Int) else 0) ≤ 1 := by
      split <;> norm_num
    have hsum0 : 0 ≤ m.A + operand + (if m.flags.carryFlag then 1 else 0) := by
      omega
    have hsumlt : m.A + operand + (if m.flags.carryFlag then 1 else 0) <
        4294967296 := by omega
    have hsmA : jsToUint32 m.A = m.A.toNat := jsToUint32_small _ hA0 (by omega)
    have hsmOp : jsToUint32 operand = operand.toNat :=
      jsToUint32_small _ hop0 (by omega)
    have hsmS : jsToUint32 (m.A + operand + (if m.flags.carryFlag then 1 else 0)) =
        (m.A + operand + (if m.flags.carryFlag then 1 else 0)).toNat :=
      jsToUint32_small _ hsum0 hsumlt
    simp only [ADC]
    refine ⟨by rw [jsAnd_255], by trivial, ?_, ?_, by rw [jsAnd_255]⟩
    · rw [Bool.eq_iff_iff]
      simp only [decide_eq_true_eq]
      rw [jsAnd128_ne, jsToUint32_jsAnd, jsToUint32_jsXor, jsToUint32_jsXor,
        hsmA, hsmOp, hsmS, and128_testBit]
    · rw [emod256_toNat, hsmS, testBit7_mod256]
      rw [Bool.eq_iff_iff]
      simp only [decide_eq_true_eq]
      rw [jsAnd128_ne, hsmS]
  · decide

/-- C1 witness: the ADC theorem instantiated at accumulator 5, operand 3,
carry clear, giving 8. -/
theorem C1_adc_correct_witness : (ADC machineADCW 3).A = 8 := by
  have h := (C1_adc_correct.1 machineADCW 3 (by decide) (by decide) (by decide)
    (by decide)).1
  rw [h]
  decide

/-- C2: for every byte-range accumulator A, operand byte M and carry flag C,
SBC stores the low 8 bits of A minus M minus (1 minus C) into the
accumulator, and sets the overflow flag to
((A xor result) and ((not M) xor result) and 0x80) nonzero, where result is
that low-8-bit value and (not M) is the 8-bit complement of M — the
behavior of ADC on the complemented operand. -/
theorem C2_sbc_correct (m : Machine) (operand : Int) (hA0 : 0 ≤ m.A)
    (hA : m.A < 256) (hop0 : 0 ≤ operand) (hop : operand < 256) :
    (SBC m operand).A =
      (m.A - operand - (if m.flags.carryFlag then 0 else 1)) % 256 ∧
    (SBC m operand).flags.overflowFlag =
      decide (((m.A.toNat ^^^
          ((m.A - operand - (if m.flags.carryFlag then 0 else 1)) % 256).toNat) &&&
        ((operand.toNat ^^^ 0xFF) ^^^
          ((m.A - operand - (if m.flags.carryFlag then 0 else 1)) % 256).toNat)) &&&
        0x80 ≠ 0) := by
  have hsmA : jsToUint32 m.A = m.A.toNat := jsToUint32_small _ hA0 (by omega)
  have hsmOp : jsToUint32 operand = operand.toNat :=
    jsToUint32_small _ hop0 (by omega)
  have h255 : (255 : Nat).testBit 7 = true := by decide
  simp only [SBC]
  refine ⟨by rw [jsAnd_255], ?_⟩
  rw [Bool.eq_iff_iff]
  simp only [Bool.and_eq_true, decide_eq_true_eq]
  rw [jsAnd128_ne, jsAnd128_ne, jsToUint32_jsXor, jsToUint32_jsXor, hsmA, hsmOp,
    and128_testBit, emod256_toNat]
  simp only [Nat.testBit_and, Nat.testBit_xor, testBit7_mod256, h255]
  generalize (m.A.toNat).testBit 7 = p
  generalize (operand.toNat).testBit 7 = q
  generalize (jsToUint32 (m.A - operand - (if m.flags.carryFlag then 0 else 1))).testBit 7 = r
  revert p q r
  decide

/-- C2 witness: the SBC theorem instantiated at accumulator 5, operand 3,
carry set, giving 2. -/
theorem C2_sbc_correct_witness : (SBC machineSBCW 3).A = 2 := by
  have h := (C2_sbc_correct machineSBCW 3 (by decide) (by decide) (by decide)
    (by decide)).1
  rw [h]
  decide

/-- C3: evaluation of the code at the failing input.  The claim says opcode
0x09 (ORA immediate) ORs the operand into the accumulator and changes no
memory; the source dispatches every ORA opcode to LSR, so from
accumulator 0, operand byte 0xFF and memory byte 3 at 0x00FF, the
accumulator stays 0 (the claim expects 0xFF), the byte at 0x00FF is shifted
to 1, and the carry flag is set from its low bit. -/
theorem C3_ora_failing_eval :
    (decodeAndExecute machineORA).A = 0 ∧
    (decodeAndExecute machineORA).A ≠ 0xFF ∧
    memRead (decodeAndExecute machineORA) 0xFF = 1 ∧
    (decodeAndExecute machineORA).flags.carryFlag = true := by
  decide

/-- C4: evaluation of the code at the failing input.  The claim says opcode
0x6C performs exactly one (buggy) pointer dereference, which from the
instruction 6C FF 00 at 0x8000 with 0x34 at 0x00FF and 0x12 at 0x0000
would set PC to 0x1234; the source dereferences a second time inside
JMP_IND, reading uninitialized memory at 0x1234/0x1235, and lands at 0. -/
theorem C4_jmp_indirect_failing_eval :
    (decodeAndExecute machineJMP).PC = 0x0000 ∧
    (decodeAndExecute machineJMP).PC ≠ 0x1234 := by
  decide

/-- C5 counterexample: with the reset vector at 0xFFFC/0xFFFD holding
0x9000 and the interrupt-disable flag clear, reset leaves PC at 0x8000
rather than the vector value, and does not set the interrupt-disable
flag, refuting the claim. -/
theorem C5_reset_counterexample :
    (cpuReset machineReset).PC ≠
      memRead machineReset 0xFFFC + 256 * memRead machineReset 0xFFFD ∧
    (cpuReset machineReset).flags.interruptFlag = false := by
  decide

/-- C5 amended: reset sets SP to 0xFD, clears A, X and Y, and sets PC to the
fixed value 0x8000; it does not read the reset vector, does not touch any
flag, and writes nothing to memory. -/
theorem C5_reset_amended (m : Machine) :
    (cpuReset m).A = 0 ∧ (cpuReset m).X = 0 ∧ (cpuReset m).Y = 0 ∧
    (cpuReset m).SP = 0xFD ∧ (cpuReset m).PC = 0x8000 ∧
    (cpuReset m).flags = m.flags ∧ (cpuReset m).data = m.data ∧
    (cpuReset m).ppuMemory = m.ppuMemory :=
  ⟨rfl, rfl, rfl, rfl, rfl, rfl, rfl, rfl⟩

/-- C6: evaluation of the code at the failing input.  The claim says any bus
read of 0x2002 returns the PPU status and clears its bit 7 and the write
toggle; in the source the bus read returns the plain CPU-memory byte
backing 0x2002 and touches no PPU state, PPU.readRegister itself returns
the status without clearing it (there is no write toggle at all), and the
bus never invokes PPU.readRegister. -/
theorem C6_status_read_failing_eval :
    memRead machineStatus 0x2002 = 0x55 ∧
    readRegister ppuStatus80 0x2002 = (0x80, ppuStatus80) ∧
    (readRegister ppuStatus80 0x2002).2.status = 0x80 := by
  decide

/-- C7 counterexample: from scanline 261 a single tick moves the scanline
counter to 262, outside the claimed range [0, 261] — the tick neither
consults a dot counter (none exists) nor wraps. -/
theorem C7_tick_counterexample :
    (executeCycles ppu261 1).currentScanline = 262 ∧
    ¬((executeCycles ppu261 1).currentScanline ≤ 261) := by
  decide

/-- C7 amended: advancing the PPU by one tick always increments
currentScanline by exactly one (iteration index 0 satisfies
0 mod 113 = 0), with no dot counter, no wrap at 262 and no odd/even frame
toggle. -/
theorem C7_tick_amended (p : PPUState) :
    (executeCycles p 1).currentScanline = p.currentScanline + 1 := rfl

/-- The Nat form of the RAM mirror mask. -/
theorem nat_and_2047 (x : Nat) : x &&& 2047 = x % 2048 := by
  have h := Nat.and_pow_two_sub_one_eq_mod x 11
  norm_num at h
  exact h

/-- A bus write below 0x2000 stores the (byte-masked) value at the mirrored
index, changing nothing else. -/
theorem memWrite_ram (m : Machine) (a v : Nat) (ha : a < 0x2000) (hv : v < 256) :
    memWrite m (a : Int) (v : Int) =
      { m with data := Function.update m.data (a % 2048) v } := by
  have h1 : (a : Int) % 65536 = (a : Int) := by omega
  have h2 : (jsAnd ((a : Int) % 65536) 2047).toNat = a % 2048 := by
    rw [h1, jsAnd_2047]; omega
  have h3 : (jsAnd ((v : Int)) 255).toNat = v := by
    rw [jsAnd_255]; omega
  have hlt : jsAnd ((a : Int)) 65535 < 0x2000 := by
    rw [jsAnd_65535, h1]; exact_mod_cast ha
  unfold memWrite
  rw [if_pos (by simpa [jsAnd_65535] using hlt)]
  rw [show jsAnd (jsAnd ((a : Int)) 65535) 2047 = jsAnd ((a : Int) % 65536) 2047 by
    rw [jsAnd_65535]]
  rw [h2, h3]

/-- A bus read below 0x2000 returns the byte at the mirrored index. -/
theorem memRead_ram (m : Machine) (a : Nat) (ha : a < 0x2000) :
    memRead m (a : Int) = (m.data (a % 2048) : Int) := by
  have h1 : (a : Int) % 65536 = (a : Int) := by omega
  have h2 : (jsAnd ((a : Int) % 65536) 2047).toNat = a % 2048 := by
    rw [h1, jsAnd_2047]; omega
  have hlt : jsAnd ((a : Int)) 65535 < 0x2000 := by
    rw [jsAnd_65535, h1]; exact_mod_cast ha
  unfold memRead
  rw [if_pos (by simpa [jsAnd_65535] using hlt)]
  rw [show jsAnd (jsAnd ((a : Int)) 65535) 2047 = jsAnd ((a : Int) % 65536) 2047 by
    rw [jsAnd_65535]]
  rw [h2]

/-- C8: for addresses below 0x2000, a bus write of a byte v at a followed by
a bus read at any a2 that agrees with a on the low 11 bits returns v, and
a read at any a3 that differs from a on the low 11 bits is unaffected:
the 2 KiB RAM is mirrored through the effective index addr AND 0x07FF. -/
theorem C8_ram_mirroring (m : Machine) (a a2 a3 v : Nat) (ha : a < 0x2000)
    (ha2 : a2 < 0x2000) (ha3 : a3 < 0x2000) (hv : v < 256) :
    (a2 &&& 0x7FF = a &&& 0x7FF →
      memRead (memWrite m (a : Int) (v : Int)) (a2 : Int) = (v : Int)) ∧
    (a3 &&& 0x7FF ≠ a &&& 0x7FF →
      memRead (memWrite m (a : Int) (v : Int)) (a3 : Int) = memRead m (a3 : Int)) := by
  rw [memWrite_ram m a v ha hv, memRead_ram _ a2 ha2, memRead_ram _ a3 ha3,
    memRead_ram m a3 ha3]
  constructor
  · intro h
    rw [nat_and_2047, nat_and_2047] at h
    simp only []
    rw [h, Function.update_same]
  · intro h
    rw [nat_and_2047, nat_and_2047] at h
    simp only []
    rw [Function.update_noteq h]

/-- C8 witness: address 0x1805 mirrors to 0x0005 and not to 0x0006. -/
theorem C8_ram_mirroring_witness :
    memRead (memWrite machineZero ((0x1805 : Nat) : Int) ((0x42 : Nat) : Int))
      ((0x0005 : Nat) : Int) = ((0x42 : Nat) : Int) ∧
    memRead (memWrite machineZero ((0x1805 : Nat) : Int) ((0x42 : Nat) : Int))
      ((0x0006 : Nat) : Int) = memRead machineZero ((0x0006 : Nat) : Int) := by
  have h := C8_ram_mirroring machineZero 0x1805 0x0005 0x0006 0x42 (by decide)
    (by decide) (by decide) (by decide)
  exact ⟨h.1 (by decide), h.2 (by decide)⟩

/-- C9 counterexample: a 16-byte image with valid magic but mapper number 1
and no PRG data is accepted by the loader, while the claim requires it to
fail for the unsupported mapper (and the short file). -/
theorem C9_loader_counterexample :
    loadRom machineZero romMapper1 ≠ LoadResult.invalidRom := by
  unfold loadRom
  rw [if_neg (by decide)]
  exact fun h => LoadResult.noConfusion h

/-- C9 amended: the loader rejects exactly when the four magic bytes are not
N, E, S, 0x1A; it checks neither the mapper number nor the file length and
never skips a trainer; on success it copies 16384 times rom[4] bytes
starting at file offset 16 to addresses from 0x8000 (stopping at 0xFFFF,
missing bytes read as 0) and resets the CPU. -/
theorem C9_loader_amended (m : Machine) (rom : List Nat) :
    (loadRom m rom = LoadResult.invalidRom ↔
      ¬(romByte rom 0 = 0x4E ∧ romByte rom 1 = 0x45 ∧ romByte rom 2 = 0x53 ∧
        romByte rom 3 = 0x1A)) ∧
    (romByte rom 0 = 0x4E ∧ romByte rom 1 = 0x45 ∧ romByte rom 2 = 0x53 ∧
        romByte rom 3 = 0x1A →
      loadRom m rom =
        LoadResult.ok (cpuReset (loadPrg rom m 16 0x8000 (16384 * romByte rom 4)))) := by
  constructor
  · unfold loadRom
    by_cases h : romByte rom 0 ≠ 0x4E ∨ romByte rom 1 ≠ 0x45 ∨
        romByte rom 2 ≠ 0x53 ∨ romByte rom 3 ≠ 0x1A
    · rw [if_pos h]
      simp only [true_iff, eq_self_iff_true]
      tauto
    · rw [if_neg h]
      push_neg at h
      constructor
      · intro hbad
        exact LoadResult.noConfusion hbad
      · intro hbad
        exact absurd ⟨h.1, h.2.1, h.2.2.1, h.2.2.2⟩ hbad
  · intro h
    unfold loadRom
    rw [if_neg (by tauto)]

/-- C9 amended witness: the loader applied to the valid-magic mapper-1 image
succeeds with the PRG copy (empty here) and the CPU reset. -/
theorem C9_loader_amended_witness :
    loadRom machineZero romMapper1 =
      LoadResult.ok (cpuReset (loadPrg romMapper1 machineZero 16 0x8000
        (16384 * romByte romMapper1 4))) :=
  (C9_loader_amended machineZero romMapper1).2 (by decide)

/-- C10: for every address, the bus read is total and pure — it is a plain
function of the machine that performs no update (the embedded Memory.read
returns only a value, mirroring a source body with no assignment), and
under the Uint8Array invariant that every stored cell is a byte its result
lies in [0, 255]. -/
theorem C10_read_pure (m : Machine) (address : Int)
    (h : ∀ i, m.data i < 256) :
    0 ≤ memRead m address ∧ memRead m address < 256 := by
  simp only [memRead]
  split_ifs <;> constructor <;>
    first
      | positivity
      | exact_mod_cast h _

/-- C10 witness: the bus read at 0x2002 on the zero machine is a byte. -/
theorem C10_read_pure_witness :
    0 ≤ memRead machineZero 0x2002 ∧ memRead machineZero 0x2002 < 256 :=
  C10_read_pure machineZero 0x2002 (fun i => by simp [machineZero])

end NES
